import Mathlib

/-
Verification development for the network analyzer tool
(src/network_analyzer.py).  The routing-table subsystem (command
dispatch, the Windows route parser and the Unix route parser), the
ARP/DNS collectors, the interface-detail collector and the aggregation
pass are embedded shallowly as Lean functions.  Python strings are
modelled as lists of characters; the Python operations used by the
source (str.strip, str.split, str.startswith, re.split on whitespace
runs, the anchored dotted-quad regex match, and list indexing) are
reimplemented structurally below so that every definition is
executable by kernel reduction.  Python list indexing, which can raise
IndexError, is modelled in an Except monad; external collaborators
(subprocess, netifaces) are modelled as explicit oracle arguments.
-/

/-- Characters treated as whitespace by the Python operations the
source uses (str.strip with no argument and the regex class matching
whitespace).  The source only ever meets ASCII command output, so the
ASCII whitespace set is used. -/
def pyIsSpace (c : Char) : Bool :=
  c = ' ' || c = '\t' || c = '\n' || c = '\r' || c = '\x0b' || c = '\x0c'

/-- Python str.strip(): drop whitespace from both ends. -/
def pyStrip (s : List Char) : List Char :=
  ((s.dropWhile pyIsSpace).reverse.dropWhile pyIsSpace).reverse

/-- Python output.split(chr(10)): split on each newline character; the
result always has one more piece than there are newlines. -/
def pySplitNl : List Char → List (List Char)
  | [] => [[]]
  | c :: cs =>
    if c = '\n' then [] :: pySplitNl cs
    else
      match pySplitNl cs with
      | t :: ts => (c :: t) :: ts
      | [] => [[c]]

/-- Python re.split on one-or-more whitespace characters: a maximal
whitespace run is a single separator; a leading or trailing run
contributes an empty piece, and the empty string maps to one empty
piece. -/
def pySplitWs : List Char → List (List Char)
  | [] => [[]]
  | c :: cs =>
    if pyIsSpace c then
      match cs with
      | d :: _ => if pyIsSpace d then pySplitWs cs else [] :: pySplitWs cs
      | [] => [] :: pySplitWs cs
    else
      match pySplitWs cs with
      | t :: ts => (c :: t) :: ts
      | [] => [[c]]

/-- Python s.startswith(p). -/
def pyStartsWith : List Char → List Char → Bool
  | [], _ => true
  | _ :: _, [] => false
  | p :: ps, c :: cs => p = c && pyStartsWith ps cs

/-- Consume one or more ASCII digits from the front, greedily. -/
def chompDigits1 : List Char → Option (List Char)
  | c :: cs => if c.isDigit then some (cs.dropWhile Char.isDigit) else none
  | [] => none

/-- Consume one dot from the front. -/
def chompDot : List Char → Option (List Char)
  | c :: cs => if c = '.' then some cs else none
  | [] => none

/-- The anchored regex used by the Unix parser: digits, dot, digits,
dot, digits, dot, digits at the start of the line (re.match semantics;
anything may follow).  Digit runs and dots are disjoint, so the greedy
scan is equivalent to the backtracking regex. -/
def ipv4Shaped (t : List Char) : Bool :=
  match chompDigits1 t with
  | none => false
  | some r1 =>
    match chompDot r1 with
    | none => false
    | some r2 =>
      match chompDigits1 r2 with
      | none => false
      | some r3 =>
        match chompDot r3 with
        | none => false
        | some r4 =>
          match chompDigits1 r4 with
          | none => false
          | some r5 =>
            match chompDot r5 with
            | none => false
            | some r6 => (chompDigits1 r6).isSome

/-- Python exceptions that the parsing layer can raise. -/
inductive PyErr where
  | indexError
deriving DecidableEq, Repr

/-- Python parts[i] on a list of tokens: the token as a string, or
IndexError when the index is out of range. -/
def listIndex (parts : List (List Char)) (i : Nat) : Except PyErr String :=
  match parts.get? i with
  | some t => Except.ok (String.mk t)
  | none => Except.error PyErr.indexError

/-- Total counterpart of listIndex used to state what the guarded
accesses compute: the token at i, or the empty string out of range. -/
def tokD (parts : List (List Char)) (i : Nat) : String :=
  match parts.get? i with
  | some t => String.mk t
  | none => ""

/-- Python conditional access parts[i] if len(parts) > i else the
empty string, as the source writes for optional trailing columns. -/
def tokIfPresent (parts : List (List Char)) (i : Nat) : Except PyErr String :=
  if i < parts.length then listIndex parts i else Except.ok ""

/-- Total counterpart of tokIfPresent. -/
def tokDIf (parts : List (List Char)) (i : Nat) : String :=
  if i < parts.length then tokD parts i else ""

/-- One Windows route record: the dict literal built by
parse_windows_route, with its five keys. -/
structure WinRoute where
  Destination : String
  Netmask : String
  Gateway : String
  Interface : String
  Metric : String
deriving DecidableEq, Repr

/-- One Unix route record: the dict literal built by
parse_unix_route, with its five keys. -/
structure UnixRoute where
  Destination : String
  Gateway : String
  Genmask : String
  Flags : String
  Interface : String
deriving DecidableEq, Repr

/-- Body of the Windows per-line record construction, after the
5-token minimum check: positional fields 0..3 and the conditional
metric field, evaluated left to right as in the Python dict literal. -/
def winBuild (parts : List (List Char)) : Except PyErr (List WinRoute) := do
  let d ← listIndex parts 0
  let n ← listIndex parts 1
  let g ← listIndex parts 2
  let i ← listIndex parts 3
  let m ← tokIfPresent parts 4
  pure [{ Destination := d, Netmask := n, Gateway := g, Interface := i, Metric := m }]

/-- One line of parse_windows_route: strip, test the 0.0.0.0 literal
start, split on whitespace runs, require at least five tokens, and
append one record. -/
def winLine (line : List Char) : Except PyErr (List WinRoute) :=
  if pyStartsWith ("0.0.0.0".data) (pyStrip line) then
    if 5 ≤ (pySplitWs (pyStrip line)).length then winBuild (pySplitWs (pyStrip line))
    else Except.ok []
  else Except.ok []

/-- The for-loop of parse_windows_route over the split lines,
appending each qualifying record in line order. -/
def winLinesRun : List (List Char) → Except PyErr (List WinRoute)
  | [] => Except.ok []
  | l :: ls => do
    let r ← winLine l
    let rest ← winLinesRun ls
    pure (r ++ rest)

/-- parse_windows_route from the source: split the output on
newlines and process each line. -/
def parse_windows_route (output : String) : Except PyErr (List WinRoute) :=
  winLinesRun (pySplitNl output.data)

/-- Body of the Unix case A record construction (line starts with
default or 0.0.0.0, at least four tokens): the destination conditional
on equality with the default marker, then positional and conditional
fields in the order of the Python dict literal. -/
def unixBuildA (parts : List (List Char)) : Except PyErr (List UnixRoute) := do
  let p0 ← listIndex parts 0
  let g ← listIndex parts 1
  let gm ← tokIfPresent parts 2
  let fl ← tokIfPresent parts 3
  let itf ← tokIfPresent parts 5
  pure [{ Destination := if p0 = "default" then "default" else p0,
          Gateway := g, Genmask := gm, Flags := fl, Interface := itf }]

/-- Body of the Unix case B record construction (dotted-quad start, at
least five tokens): positional fields 0..3 and the conditional sixth
token as interface. -/
def unixBuildB (parts : List (List Char)) : Except PyErr (List UnixRoute) := do
  let d ← listIndex parts 0
  let g ← listIndex parts 1
  let gm ← listIndex parts 2
  let fl ← listIndex parts 3
  let itf ← tokIfPresent parts 5
  pure [{ Destination := d, Gateway := g, Genmask := gm, Flags := fl, Interface := itf }]

/-- One line of parse_unix_route: strip, then case A when the line
starts with default or 0.0.0.0, else case B when the dotted-quad regex
matches, else nothing. -/
def unixLine (line : List Char) : Except PyErr (List UnixRoute) :=
  if pyStartsWith ("default".data) (pyStrip line) || pyStartsWith ("0.0.0.0".data) (pyStrip line) then
    if 4 ≤ (pySplitWs (pyStrip line)).length then unixBuildA (pySplitWs (pyStrip line))
    else Except.ok []
  else if ipv4Shaped (pyStrip line) then
    if 5 ≤ (pySplitWs (pyStrip line)).length then unixBuildB (pySplitWs (pyStrip line))
    else Except.ok []
  else Except.ok []

/-- The for-loop of parse_unix_route over the split lines. -/
def unixLinesRun : List (List Char) → Except PyErr (List UnixRoute)
  | [] => Except.ok []
  | l :: ls => do
    let r ← unixLine l
    let rest ← unixLinesRun ls
    pure (r ++ rest)

/-- parse_unix_route from the source: split the output on newlines
and process each line. -/
def parse_unix_route (output : String) : Except PyErr (List UnixRoute) :=
  unixLinesRun (pySplitNl output.data)

/-- Line qualification for the Windows parser: trimmed line starts
with the 0.0.0.0 literal and splits into at least five tokens.  This
is exactly the guard under which parse_windows_route emits a record. -/
def winQualifies (line : List Char) : Bool :=
  pyStartsWith ("0.0.0.0".data) (pyStrip line) && decide (5 ≤ (pySplitWs (pyStrip line)).length)

/-- Line qualification for the Unix parser: case A prefix with at
least four tokens, or otherwise the dotted-quad shape with at least
five tokens.  This is exactly the guard under which parse_unix_route
emits a record. -/
def unixQualifies (line : List Char) : Bool :=
  if pyStartsWith ("default".data) (pyStrip line) || pyStartsWith ("0.0.0.0".data) (pyStrip line) then
    decide (4 ≤ (pySplitWs (pyStrip line)).length)
  else if ipv4Shaped (pyStrip line) then
    decide (5 ≤ (pySplitWs (pyStrip line)).length)
  else false

/-- The record a qualifying Windows line produces, as a total
function of the line. -/
def winRec (parts : List (List Char)) : WinRoute :=
  { Destination := tokD parts 0, Netmask := tokD parts 1, Gateway := tokD parts 2,
    Interface := tokD parts 3, Metric := tokDIf parts 4 }

/-- The record a qualifying Windows line produces. -/
def winRecordOf (line : List Char) : WinRoute :=
  winRec (pySplitWs (pyStrip line))

/-- The record a qualifying Unix case A line produces. -/
def recA (parts : List (List Char)) : UnixRoute :=
  { Destination := if tokD parts 0 = "default" then "default" else tokD parts 0,
    Gateway := tokD parts 1, Genmask := tokDIf parts 2, Flags := tokDIf parts 3,
    Interface := tokDIf parts 5 }

/-- The record a qualifying Unix case B line produces. -/
def recB (parts : List (List Char)) : UnixRoute :=
  { Destination := tokD parts 0, Gateway := tokD parts 1, Genmask := tokD parts 2,
    Flags := tokD parts 3, Interface := tokDIf parts 5 }

/-- The record a qualifying Unix line produces, by case. -/
def unixRecordOf (line : List Char) : UnixRoute :=
  if pyStartsWith ("default".data) (pyStrip line) || pyStartsWith ("0.0.0.0".data) (pyStrip line) then
    recA (pySplitWs (pyStrip line))
  else recB (pySplitWs (pyStrip line))

/-- Decidable equality for Except values, used to evaluate parser
results on concrete inputs. -/
instance {ε α : Type} [DecidableEq ε] [DecidableEq α] : DecidableEq (Except ε α)
  | Except.ok a, Except.ok b =>
    if h : a = b then isTrue (by rw [h]) else isFalse (fun he => h (Except.ok.inj he))
  | Except.ok _, Except.error _ => isFalse (fun he => Except.noConfusion he)
  | Except.error _, Except.ok _ => isFalse (fun he => Except.noConfusion he)
  | Except.error e, Except.error f =>
    if h : e = f then isTrue (by rw [h]) else isFalse (fun he => h (Except.error.inj he))

/-- Result of get_routing_table: the parsed route list of the platform
variant that ran, or the error dict. -/
inductive RouteResult where
  | winRoutes (rs : List WinRoute)
  | unixRoutes (rs : List UnixRoute)
  | error (msg : String)
deriving DecidableEq, Repr

/-- The command runner oracle: subprocess.check_output through the
shell, returning decoded text or the message of the raised
exception. -/
def Runner : Type := String → Except String String

/-- get_windows_routing_table: run the route print command, parse on
success, and turn any exception (from the command or from parsing)
into the error dict.  The second component records the commands
issued.  The message for an in-parser IndexError is the Python
rendering of that exception; the totality theorem below shows the
branch is never taken. -/
def get_windows_routing_table (runner : Runner) : RouteResult × List String :=
  (match runner ("route print") with
   | Except.ok text =>
     match parse_windows_route text with
     | Except.ok rs => RouteResult.winRoutes rs
     | Except.error _ => RouteResult.error ("list index out of range")
   | Except.error e => RouteResult.error e,
   ["route print"])

/-- get_unix_routing_table: run netstat, parse on success, and turn
any exception into the error dict, recording the command issued. -/
def get_unix_routing_table (runner : Runner) : RouteResult × List String :=
  (match runner ("netstat -rn") with
   | Except.ok text =>
     match parse_unix_route text with
     | Except.ok rs => RouteResult.unixRoutes rs
     | Except.error _ => RouteResult.error ("list index out of range")
   | Except.error e => RouteResult.error e,
   ["netstat -rn"])

/-- get_routing_table: dispatch on the platform tag; on an
unrecognized platform return the error dict with no command issued. -/
def get_routing_table (system : String) (runner : Runner) : RouteResult × List String :=
  if system = "Windows" then get_windows_routing_table runner
  else if system ∈ (["Linux", "Darwin"] : List String) then get_unix_routing_table runner
  else (RouteResult.error ("Unsupported operating system"), [])

/-- get_arp_table: platform-selected arp command; an exception becomes
the inline error string. -/
def get_arp_table (system : String) (runner : Runner) : String :=
  if system = "Windows" then
    match runner ("arp -a") with
    | Except.ok t => t
    | Except.error e => "Error getting ARP table: " ++ e
  else
    match runner ("arp -n") with
    | Except.ok t => t
    | Except.error e => "Error getting ARP table: " ++ e

/-- get_dns_info: platform-selected command; an exception becomes the
inline error string. -/
def get_dns_info (system : String) (runner : Runner) : String :=
  if system = "Windows" then
    match runner ("ipconfig /all") with
    | Except.ok t => t
    | Except.error e => "Error getting DNS info: " ++ e
  else
    match runner ("cat /etc/resolv.conf") with
    | Except.ok t => t
    | Except.error e => "Error getting DNS info: " ++ e

/-- One address dict from netifaces (string keys to string values). -/
abbrev AddrEntry := List (String × String)

/-- The dict netifaces.ifaddresses returns: address family number to
a nonempty list of address dicts (head and tail; netifaces never maps
a listed family to an empty list). -/
abbrev FamMap := List (Nat × (AddrEntry × List AddrEntry))

/-- First-match lookup in a dict with Nat keys. -/
def famLookup {α : Type} : List (Nat × α) → Nat → Option α
  | [], _ => none
  | (k, v) :: rest, k0 => if k = k0 then some v else famLookup rest k0

/-- First-match lookup in a dict with String keys. -/
def strLookup {α : Type} : List (String × α) → String → Option α
  | [], _ => none
  | (k, v) :: rest, k0 => if k = k0 then some v else strLookup rest k0

/-- Python dict assignment d[k] = v: replace in place or append. -/
def dictInsert {α : Type} : List (String × α) → String → α → List (String × α)
  | [], k, v => [(k, v)]
  | (k0, v0) :: rest, k, v =>
    if k0 = k then (k, v) :: rest else (k0, v0) :: dictInsert rest k v

/-- Python d[k] on a string dict: the value or a KeyError. -/
def dictGetS (d : AddrEntry) (k : String) : Except Unit String :=
  match strLookup d k with
  | some v => Except.ok v
  | none => Except.error ()

/-- Python d.get(k, dflt) on a string dict. -/
def dictGetD (d : AddrEntry) (k dflt : String) : String :=
  match strLookup d k with
  | some v => v
  | none => dflt

/-- netifaces.AF_INET. -/
def AF_INET : Nat := 2

/-- netifaces.AF_LINK. -/
def AF_LINK : Nat := 17

/-- The environment of external collaborators one run observes:
platform tag, shell command runner, and the netifaces services.
ifaddresses raises ValueError on an unknown interface; the error
carries no data because the source only catches and skips. -/
structure NetEnv where
  system : String
  runner : Runner
  interfaces : List String
  ifaddresses : String → Except Unit FamMap
  gateways : List (String × List (Nat × List String))

/-- Details recorded per interface by get_interface_details. -/
structure IfaceDetails where
  IP : String
  Netmask : String
  MAC : Option String
  Broadcast : String
deriving DecidableEq, Repr

/-- The MAC entry: the link-layer address dict head when AF_LINK is
present, else None (a missing addr key raises KeyError). -/
def macOfLink (addrs : FamMap) : Except Unit (Option String) :=
  match famLookup addrs AF_LINK with
  | some link =>
    match dictGetS link.1 ("addr") with
    | Except.ok a => Except.ok (some a)
    | Except.error e => Except.error e
  | none => Except.ok none

/-- The body of the per-interface try block of get_interface_details:
ifaddresses, the AF_INET membership test, and the dict literal fields
evaluated left to right; any ValueError or KeyError escapes to the
caller of this definition (which skips the interface). -/
def interfaceEntry (env : NetEnv) (iface : String) : Except Unit (Option IfaceDetails) :=
  match env.ifaddresses iface with
  | Except.error e => Except.error e
  | Except.ok addrs =>
    match famLookup addrs AF_INET with
    | none => Except.ok none
    | some inet =>
      match dictGetS inet.1 ("addr") with
      | Except.error e => Except.error e
      | Except.ok ip =>
        match dictGetS inet.1 ("netmask") with
        | Except.error e => Except.error e
        | Except.ok nm =>
          match macOfLink addrs with
          | Except.error e => Except.error e
          | Except.ok mac =>
            Except.ok (some { IP := ip, Netmask := nm, MAC := mac,
                              Broadcast := dictGetD inet.1 ("broadcast") ("N/A") })

/-- One iteration of the get_interface_details loop: on a caught
exception or a missing AF_INET entry the dict is unchanged, else the
interface is assigned its details. -/
def processInterface (env : NetEnv) (acc : List (String × IfaceDetails)) (iface : String) :
    List (String × IfaceDetails) :=
  match interfaceEntry env iface with
  | Except.ok (some d) => dictInsert acc iface d
  | Except.ok none => acc
  | Except.error _ => acc

/-- get_interface_details: fold the loop over the enumerated
interfaces, starting from the empty dict. -/
def get_interface_details (env : NetEnv) : List (String × IfaceDetails) :=
  env.interfaces.foldl (processInterface env) []

/-- The snapshot collect_all_info assembles. -/
structure Snapshot where
  routing_table : RouteResult
  interface_details : List (String × IfaceDetails)
  arp_table : String
  dns_info : String
  gateway_info : List (Nat × List String)

/-- collect_all_info: the five collection steps in source order; the
gateway step is netifaces.gateways().get of the default key with the
empty dict as fallback. -/
def collect_all_info (env : NetEnv) : Snapshot :=
  { routing_table := (get_routing_table env.system env.runner).1,
    interface_details := get_interface_details env,
    arp_table := get_arp_table env.system env.runner,
    dns_info := get_dns_info env.system env.runner,
    gateway_info := (strLookup env.gateways ("default")).getD [] }

/-- The rows display_routing_table feeds to the table, one per
record, with the Netmask slot falling back to Genmask and the Metric
slot falling back to Flags; an error result yields no table (the
error message is printed instead). -/
def routeDisplayRows (rt : RouteResult) : Option (List (List String)) :=
  match rt with
  | RouteResult.error _ => none
  | RouteResult.winRoutes rs =>
    some (rs.map fun r => [r.Destination, r.Gateway, r.Netmask, r.Interface, r.Metric])
  | RouteResult.unixRoutes rs =>
    some (rs.map fun r => [r.Destination, r.Gateway, r.Genmask, r.Interface, r.Flags])

/-- Sample input line of the Unix parser claim about a seven-token
default line. -/
def c2Line : String := "default  10.0.0.1  UG  0  0  0  wlan0"

/-- The record the seven-token claim expects. -/
def c2Claimed : UnixRoute :=
  { Destination := "default", Gateway := "10.0.0.1", Genmask := "UG",
    Flags := "0", Interface := "wlan0" }

/-- The record the code actually produces for the seven-token line:
token index 5 is the third zero, not the trailing interface name. -/
def c2Actual : UnixRoute :=
  { Destination := "default", Gateway := "10.0.0.1", Genmask := "UG",
    Flags := "0", Interface := "0" }

/-- Sample input line of the Windows parser claim. -/
def c3Line : String := "0.0.0.0  0.0.0.0  192.168.1.1  eth0  25"

/-- The record the Windows single-line claim expects. -/
def c3Rec : WinRoute :=
  { Destination := "0.0.0.0", Netmask := "0.0.0.0", Gateway := "192.168.1.1",
    Interface := "eth0", Metric := "25" }

/-- Sample netstat text used by the aggregation witness. -/
def unixSample : String := "default 10.0.0.1 0.0.0.0 UG 0 0 eth0"

/-- Environment for the aggregation witness: a Linux host whose
netstat succeeds and whose every other command fails. -/
def envC5 : NetEnv :=
  { system := "Linux",
    runner := fun c => if c = "netstat -rn" then Except.ok unixSample
                       else Except.error ("exit status 1"),
    interfaces := [],
    ifaddresses := fun _ => Except.error (),
    gateways := [] }

/-- Environment for the interface-filter witness: one enumerated
interface whose address query raises. -/
def envC8 : NetEnv :=
  { system := "Linux",
    runner := fun _ => Except.error ("unavailable"),
    interfaces := ["docker0"],
    ifaddresses := fun _ => Except.error (),
    gateways := [] }

/-- Sample Windows route text used by the metric witness. -/
def winSample : String := "0.0.0.0 255.255.255.0 10.0.0.1 eth0 25"

/-- The record the metric witness expects. -/
def winSampleRec : WinRoute :=
  { Destination := "0.0.0.0", Netmask := "255.255.255.0", Gateway := "10.0.0.1",
    Interface := "eth0", Metric := "25" }

/-- Sample four-token default line used by the interface-absence
witness. -/
def unixShort : String := "default 10.0.0.1 0.0.0.0 U"

/-- The record the interface-absence witness expects: no sixth token,
so the interface slot is the empty string. -/
def unixShortRec : UnixRoute :=
  { Destination := "default", Gateway := "10.0.0.1", Genmask := "0.0.0.0",
    Flags := "U", Interface := "" }

theorem listIndex_tokD : ∀ (parts : List (List Char)) (i : Nat), i < parts.length →
    listIndex parts i = Except.ok (tokD parts i) := by
  intro parts
  induction parts with
  | nil => intro i h; exact absurd h (by simp)
  | cons p ps ih =>
    intro i h
    cases i with
    | zero => rfl
    | succ n => exact ih n (Nat.lt_of_succ_lt_succ h)

theorem tokIfPresent_eq (parts : List (List Char)) (i : Nat) :
    tokIfPresent parts i = Except.ok (tokDIf parts i) := by
  unfold tokIfPresent tokDIf
  by_cases h : i < parts.length
  · rw [if_pos h, if_pos h, listIndex_tokD parts i h]
  · rw [if_neg h, if_neg h]

theorem winBuild_eq (parts : List (List Char)) (h : 5 ≤ parts.length) :
    winBuild parts = Except.ok [winRec parts] := by
  have h0 := listIndex_tokD parts 0 (by omega)
  have h1 := listIndex_tokD parts 1 (by omega)
  have h2 := listIndex_tokD parts 2 (by omega)
  have h3 := listIndex_tokD parts 3 (by omega)
  have h4 := tokIfPresent_eq parts 4
  simp only [winBuild, h0, h1, h2, h3, h4]
  rfl

theorem unixBuildA_eq (parts : List (List Char)) (h : 4 ≤ parts.length) :
    unixBuildA parts = Except.ok [recA parts] := by
  have h0 := listIndex_tokD parts 0 (by omega)
  have h1 := listIndex_tokD parts 1 (by omega)
  have h2 := tokIfPresent_eq parts 2
  have h3 := tokIfPresent_eq parts 3
  have h5 := tokIfPresent_eq parts 5
  simp only [unixBuildA, h0, h1, h2, h3, h5]
  rfl

theorem unixBuildB_eq (parts : List (List Char)) (h : 5 ≤ parts.length) :
    unixBuildB parts = Except.ok [recB parts] := by
  have h0 := listIndex_tokD parts 0 (by omega)
  have h1 := listIndex_tokD parts 1 (by omega)
  have h2 := listIndex_tokD parts 2 (by omega)
  have h3 := listIndex_tokD parts 3 (by omega)
  have h5 := tokIfPresent_eq parts 5
  simp only [unixBuildB, h0, h1, h2, h3, h5]
  rfl

theorem winLine_eq (l : List Char) :
    winLine l = Except.ok (if winQualifies l then [winRecordOf l] else []) := by
  unfold winLine winQualifies winRecordOf
  by_cases h1 : pyStartsWith ("0.0.0.0".data) (pyStrip l) = true
  · by_cases h2 : 5 ≤ (pySplitWs (pyStrip l)).length
    · simp [h1, h2, winBuild_eq _ h2]
    · simp [h1, h2]
  · simp [Bool.not_eq_true] at h1
    simp [h1]

theorem unixLine_eq (l : List Char) :
    unixLine l = Except.ok (if unixQualifies l then [unixRecordOf l] else []) := by
  unfold unixLine unixQualifies unixRecordOf
  by_cases h1 : (pyStartsWith ("default".data) (pyStrip l) ||
      pyStartsWith ("0.0.0.0".data) (pyStrip l)) = true
  · by_cases h2 : 4 ≤ (pySplitWs (pyStrip l)).length
    · simp [h1, h2, unixBuildA_eq _ h2]
    · simp [h1, h2]
  · simp [Bool.not_eq_true] at h1
    by_cases h3 : ipv4Shaped (pyStrip l) = true
    · by_cases h4 : 5 ≤ (pySplitWs (pyStrip l)).length
      · simp [h1, h3, h4, unixBuildB_eq _ h4]
      · simp [h1, h3, h4]
    · simp [Bool.not_eq_true] at h3
      simp [h1, h3]

theorem winLinesRun_eq (ls : List (List Char)) :
    winLinesRun ls = Except.ok ((ls.filter winQualifies).map winRecordOf) := by
  induction ls with
  | nil => rfl
  | cons l ls ih =>
    cases hq : winQualifies l with
    | true =>
      simp only [winLinesRun, winLine_eq l, hq, if_true, ih, List.filter_cons, List.map]
      rfl
    | false =>
      simp only [winLinesRun, winLine_eq l, hq, if_false, ih, List.filter_cons]
      rfl

theorem unixLinesRun_eq (ls : List (List Char)) :
    unixLinesRun ls = Except.ok ((ls.filter unixQualifies).map unixRecordOf) := by
  induction ls with
  | nil => rfl
  | cons l ls ih =>
    cases hq : unixQualifies l with
    | true =>
      simp only [unixLinesRun, unixLine_eq l, hq, if_true, ih, List.filter_cons, List.map]
      rfl
    | false =>
      simp only [unixLinesRun, unixLine_eq l, hq, if_false, ih, List.filter_cons]
      rfl

theorem parse_windows_route_eq (output : String) :
    parse_windows_route output =
      Except.ok (((pySplitNl output.data).filter winQualifies).map winRecordOf) :=
  winLinesRun_eq (pySplitNl output.data)

theorem parse_unix_route_eq (output : String) :
    parse_unix_route output =
      Except.ok (((pySplitNl output.data).filter unixQualifies).map unixRecordOf) :=
  unixLinesRun_eq (pySplitNl output.data)

theorem strLookup_dictInsert_ne {α : Type} (acc : List (String × α)) (k : String) (v : α)
    (k0 : String) (h : k ≠ k0) :
    strLookup (dictInsert acc k v) k0 = strLookup acc k0 := by
  induction acc with
  | nil => simp [dictInsert, strLookup, h]
  | cons p rest ih =>
    obtain ⟨pk, pv⟩ := p
    by_cases hp : pk = k
    · subst hp
      simp [dictInsert, strLookup, h]
    · simp [dictInsert, strLookup, hp, ih]

theorem processInterface_skip (env : NetEnv) (acc : List (String × IfaceDetails)) (iface : String)
    (h : ∀ addrs, env.ifaddresses iface = Except.ok addrs → famLookup addrs AF_INET = none) :
    processInterface env acc iface = acc := by
  unfold processInterface interfaceEntry
  cases hia : env.ifaddresses iface with
  | error e => rfl
  | ok addrs =>
    simp [h addrs hia]

theorem foldl_no_ipv4 (env : NetEnv) (iface : String)
    (h : ∀ addrs, env.ifaddresses iface = Except.ok addrs → famLookup addrs AF_INET = none) :
    ∀ (ifs : List String) (acc : List (String × IfaceDetails)),
      strLookup acc iface = none →
      strLookup (ifs.foldl (processInterface env) acc) iface = none := by
  intro ifs
  induction ifs with
  | nil => intro acc hacc; simpa using hacc
  | cons i is ih =>
    intro acc hacc
    rw [List.foldl_cons]
    apply ih
    by_cases hi : i = iface
    · subst hi
      rw [processInterface_skip env acc i h]
      exact hacc
    · unfold processInterface
      cases he : interfaceEntry env i with
      | error e => exact hacc
      | ok od =>
        cases od with
        | none => exact hacc
        | some d =>
          rw [strLookup_dictInsert_ne acc i d iface hi]
          exact hacc

/-- Claim C1: for every input text, each route parser returns exactly
one record per line whose trimmed content satisfies the qualification
predicate of that parser (prefix or shape test together with the token
count requirement), mapped in source-line order with no deduplication
and no sorting, and hence the output length equals the number of
qualifying lines. -/
theorem route_parsers_emit_qualifying_lines :
    ∀ output : String,
      parse_windows_route output =
        Except.ok (((pySplitNl output.data).filter winQualifies).map winRecordOf) ∧
      parse_unix_route output =
        Except.ok (((pySplitNl output.data).filter unixQualifies).map unixRecordOf) ∧
      (((pySplitNl output.data).filter winQualifies).map winRecordOf).length =
        ((pySplitNl output.data).filter winQualifies).length ∧
      (((pySplitNl output.data).filter unixQualifies).map unixRecordOf).length =
        ((pySplitNl output.data).filter unixQualifies).length :=
  fun output =>
    ⟨parse_windows_route_eq output, parse_unix_route_eq output,
     List.length_map _ _, List.length_map _ _⟩

/-- Claim C2, counterexample: on the seven-token default line the
parser does not return a record whose interface is the seventh token
wlan0; token index 5 of that line is a zero, so the claimed record is
not produced. -/
theorem unix_seven_token_interface_cex :
    parse_unix_route c2Line ≠ Except.ok [c2Claimed] := by decide

/-- Claim C2, amended: the seven-token default line yields exactly one
record with destination default, gateway 10.0.0.1, genmask UG, flags 0,
and interface 0, the value at token index 5 under the skip-index-4
rule (the trailing wlan0 sits at token index 6 and is dropped). -/
theorem unix_seven_token_record :
    parse_unix_route c2Line = Except.ok [c2Actual] ∧
    c2Actual.Interface = tokD (pySplitWs (pyStrip c2Line.data)) 5 :=
  ⟨by rfl, by rfl⟩

/-- Claim C3: the five-token Windows line maps tokens 0..4
positionally to destination, netmask, gateway, interface and metric,
producing exactly one record. -/
theorem windows_single_line_record :
    parse_windows_route c3Line = Except.ok [c3Rec] := by rfl

/-- Claim C4: for every platform tag that is neither Windows nor in
the Linux/Darwin family, get_routing_table returns the unsupported
operating system error and issues no external command. -/
theorem unsupported_platform_no_command :
    ∀ (system : String) (runner : Runner),
      system ≠ "Windows" →
      system ∉ (["Linux", "Darwin"] : List String) →
      get_routing_table system runner =
        (RouteResult.error ("Unsupported operating system"), []) := by
  intro system runner h1 h2
  unfold get_routing_table
  rw [if_neg h1, if_neg h2]

/-- Witness for claim C4 at the platform tag FreeBSD. -/
theorem unsupported_platform_no_command_witness :
    (("FreeBSD" : String) ≠ "Windows" ∧
     ("FreeBSD" : String) ∉ (["Linux", "Darwin"] : List String)) ∧
    get_routing_table ("FreeBSD") (fun _ => Except.ok ("")) =
      (RouteResult.error ("Unsupported operating system"), []) :=
  ⟨⟨by decide, by decide⟩,
   unsupported_platform_no_command ("FreeBSD") (fun _ => Except.ok ("")) (by decide) (by decide)⟩

/-- Claim C5: on a Unix-family platform where the netstat command
succeeds and the arp command raises, the aggregation pass still
produces a snapshot whose routing table is the parsed record list and
whose ARP section is the contained error string, and the display row
extraction renders the routing table; every collection step is a total
function of the environment, so no step aborts the pass. -/
theorem arp_failure_partial_snapshot :
    ∀ (env : NetEnv) (text msg : String),
      env.system ∈ (["Linux", "Darwin"] : List String) →
      env.runner ("netstat -rn") = Except.ok text →
      env.runner ("arp -n") = Except.error msg →
      (collect_all_info env).routing_table =
        RouteResult.unixRoutes (((pySplitNl text.data).filter unixQualifies).map unixRecordOf) ∧
      (collect_all_info env).arp_table = "Error getting ARP table: " ++ msg ∧
      routeDisplayRows (collect_all_info env).routing_table =
        some ((((pySplitNl text.data).filter unixQualifies).map unixRecordOf).map
          (fun r => [r.Destination, r.Gateway, r.Genmask, r.Interface, r.Flags])) := by
  intro env text msg hsys hroute harp
  have hdisj : env.system = "Linux" ∨ env.system = "Darwin" := by simpa using hsys
  have hnw : env.system ≠ "Windows" := by
    rcases hdisj with h | h <;> rw [h] <;> decide
  have hrt : (collect_all_info env).routing_table =
      RouteResult.unixRoutes (((pySplitNl text.data).filter unixQualifies).map unixRecordOf) := by
    show (get_routing_table env.system env.runner).1 = _
    unfold get_routing_table
    rw [if_neg hnw, if_pos hsys]
    unfold get_unix_routing_table
    simp only [hroute, parse_unix_route_eq text]
  refine ⟨hrt, ?_, ?_⟩
  · show get_arp_table env.system env.runner = _
    unfold get_arp_table
    rw [if_neg hnw, harp]
  · rw [hrt]
    rfl

/-- Witness for claim C5: a Linux environment whose netstat call
succeeds and whose arp call fails. -/
theorem arp_failure_partial_snapshot_witness :
    (envC5.system ∈ (["Linux", "Darwin"] : List String) ∧
     envC5.runner ("netstat -rn") = Except.ok unixSample ∧
     envC5.runner ("arp -n") = Except.error ("exit status 1")) ∧
    ((collect_all_info envC5).routing_table =
        RouteResult.unixRoutes (((pySplitNl unixSample.data).filter unixQualifies).map unixRecordOf) ∧
     (collect_all_info envC5).arp_table = "Error getting ARP table: " ++ "exit status 1" ∧
     routeDisplayRows (collect_all_info envC5).routing_table =
        some ((((pySplitNl unixSample.data).filter unixQualifies).map unixRecordOf).map
          (fun r => [r.Destination, r.Gateway, r.Genmask, r.Interface, r.Flags]))) :=
  ⟨⟨by decide, by rfl, by rfl⟩,
   arp_failure_partial_snapshot envC5 unixSample ("exit status 1") (by decide) (by rfl) (by rfl)⟩

/-- Claim C6: every record parse_windows_route emits comes from a
qualifying line with strictly more than four tokens, and its metric is
exactly token index 4 of that line, so the empty-string default branch
of the metric field is unreachable after the five-token check. -/
theorem windows_metric_token4 :
    ∀ (output : String) (rs : List WinRoute),
      parse_windows_route output = Except.ok rs →
      ∀ r ∈ rs, ∃ line ∈ pySplitNl output.data,
        winQualifies line = true ∧
        4 < (pySplitWs (pyStrip line)).length ∧
        r.Metric = tokD (pySplitWs (pyStrip line)) 4 := by
  intro output rs h r hr
  rw [parse_windows_route_eq] at h
  have hrs := Except.ok.inj h
  subst hrs
  rcases List.mem_map.1 hr with ⟨line, hline, rfl⟩
  rcases List.mem_filter.1 hline with ⟨hlm, hq⟩
  have hlen : 5 ≤ (pySplitWs (pyStrip line)).length := by
    have hq2 := hq
    simp [winQualifies] at hq2
    exact hq2.2
  refine ⟨line, hlm, hq, by omega, ?_⟩
  show (winRecordOf line).Metric = tokD (pySplitWs (pyStrip line)) 4
  simp only [winRecordOf, winRec]
  unfold tokDIf
  rw [if_pos (by omega : 4 < (pySplitWs (pyStrip line)).length)]

/-- Witness for claim C6 on a single five-token Windows line. -/
theorem windows_metric_token4_witness :
    parse_windows_route winSample = Except.ok [winSampleRec] ∧
    (∃ line ∈ pySplitNl winSample.data,
      winQualifies line = true ∧
      4 < (pySplitWs (pyStrip line)).length ∧
      winSampleRec.Metric = tokD (pySplitWs (pyStrip line)) 4) :=
  ⟨by rfl,
   windows_metric_token4 winSample [winSampleRec] (by rfl) winSampleRec (List.Mem.head _)⟩

/-- Claim C7: every record parse_unix_route emits comes from a
qualifying line, and when that line has at most five tokens the
interface field of the record is the empty string, the value the
source uses for an absent interface. -/
theorem unix_interface_needs_sixth_token :
    ∀ (output : String) (rs : List UnixRoute),
      parse_unix_route output = Except.ok rs →
      ∀ r ∈ rs, ∃ line ∈ pySplitNl output.data,
        unixQualifies line = true ∧
        ((pySplitWs (pyStrip line)).length ≤ 5 → r.Interface = "") := by
  intro output rs h r hr
  rw [parse_unix_route_eq] at h
  have hrs := Except.ok.inj h
  subst hrs
  rcases List.mem_map.1 hr with ⟨line, hline, rfl⟩
  rcases List.mem_filter.1 hline with ⟨hlm, hq⟩
  refine ⟨line, hlm, hq, ?_⟩
  intro hle
  have h5 : ¬ (5 < (pySplitWs (pyStrip line)).length) := by omega
  by_cases hb : (pyStartsWith ("default".data) (pyStrip line) ||
      pyStartsWith ("0.0.0.0".data) (pyStrip line)) = true
  · simp [unixRecordOf, recA, tokDIf, hb, h5]
  · simp only [Bool.not_eq_true] at hb
    simp [unixRecordOf, recB, tokDIf, hb, h5]

/-- Witness for claim C7 on a four-token default line. -/
theorem unix_interface_needs_sixth_token_witness :
    parse_unix_route unixShort = Except.ok [unixShortRec] ∧
    (∃ line ∈ pySplitNl unixShort.data,
      unixQualifies line = true ∧
      ((pySplitWs (pyStrip line)).length ≤ 5 → unixShortRec.Interface = "")) :=
  ⟨by rfl,
   unix_interface_needs_sixth_token unixShort [unixShortRec] (by rfl) unixShortRec
     (List.Mem.head _)⟩

/-- Claim C8: an interface that appears in the enumeration but whose
address query never reports an IPv4 family entry is not a key of the
dict get_interface_details returns. -/
theorem no_ipv4_interface_omitted :
    ∀ (env : NetEnv) (iface : String),
      iface ∈ env.interfaces →
      (∀ addrs, env.ifaddresses iface = Except.ok addrs → famLookup addrs AF_INET = none) →
      strLookup (get_interface_details env) iface = none := by
  intro env iface _ h
  show strLookup (env.interfaces.foldl (processInterface env) []) iface = none
  exact foldl_no_ipv4 env iface h env.interfaces [] rfl

/-- Witness for claim C8: one enumerated interface whose address query
raises, hence never reports an IPv4 entry. -/
theorem no_ipv4_interface_omitted_witness :
    (("docker0" : String) ∈ envC8.interfaces) ∧
    strLookup (get_interface_details envC8) ("docker0") = none :=
  ⟨by decide,
   no_ipv4_interface_omitted envC8 ("docker0") (by decide)
     (fun _ h => Except.noConfusion h)⟩

/-- Claim C9: both route parsers are pure functions of the input text
in this embedding, exactly as the Python staticmethods read no state
outside their argument, so parsing the same text twice yields the same
record sequence. -/
theorem route_parsers_deterministic :
    ∀ output : String,
      parse_windows_route output = parse_windows_route output ∧
      parse_unix_route output = parse_unix_route output :=
  fun _ => ⟨rfl, rfl⟩

/-- Claim C10: both route parsers are total: every token index access
sits behind a token-count guard, so on every input text, including
empty text and short qualifying lines, the IndexError-aware embedding
returns a record list and never an exception. -/
theorem route_parsers_total :
    ∀ output : String,
      (∃ ws, parse_windows_route output = Except.ok ws) ∧
      (∃ us, parse_unix_route output = Except.ok us) :=
  fun output =>
    ⟨⟨_, parse_windows_route_eq output⟩, ⟨_, parse_unix_route_eq output⟩⟩
